import Mathlib

/-!
Verification of `cryoet-data-portal-neuroglancer` against its specification.

The development shallowly embeds `src/cryoet_data_portal_neuroglancer/state_generator.py`
(color parsing/validation, the layer constructors, and `combine_json_layers`) and the
shader builder described by the spec and exercised by `src/tests/test_shader.py`.
Python dictionaries are modelled as insertion-ordered association lists, fallible
operations (indexing, key lookup, `int(...)` conversion) return `Except String`,
and floating-point literals are modelled as exact rationals.
-/

namespace CryoetNeuroglancer

/-- JSON values, as produced by the state generator. Numbers are modelled as
exact rationals (the Python code only constructs and copies decimal literals;
no claim depends on binary floating-point rounding). -/
inductive JValue where
  | jnull
  | jbool (b : Bool)
  | jnum (q : ℚ)
  | jstr (s : String)
  | jarr (elems : List JValue)
  | jobj (fields : List (String × JValue))

/-- A Python `dict[str, Any]`, modelled as an insertion-ordered association
list with unique keys (Python dict literals in the source all have distinct
literal keys). -/
abbrev Obj := List (String × JValue)

/-- `o[k]` as a non-faulting lookup: `some v` when the key is present. -/
def lookupKey (o : Obj) (k : String) : Option JValue :=
  (o.find? (fun p => p.1 == k)).map (fun p => p.2)

/-- `o[k] = v` on a Python dict: overwrite in place when the key exists
(keeping its position), otherwise append the new key at the end. -/
def setKey (o : Obj) (k : String) (v : JValue) : Obj :=
  if o.any (fun p => p.1 == k) then
    o.map (fun p => if p.1 == k then (k, v) else p)
  else
    o ++ [(k, v)]

/-- Is `c` one of the hexadecimal digit characters accepted by
Python `int(-, 16)`. -/
def isHexDigitChar (c : Char) : Bool :=
  c.isDigit || (('a' ≤ c && c ≤ 'f') || ('A' ≤ c && c ≤ 'F'))

/-- Numeric value of a hexadecimal digit character. -/
def hexVal (c : Char) : Nat :=
  if c.isDigit then c.toNat - 48
  else if 'a' ≤ c then c.toNat - 87
  else c.toNat - 55

/-- Numeric value of a decimal digit string. -/
def natOfDigits (cs : List Char) : Nat :=
  cs.foldl (fun a c => 10 * a + (c.toNat - 48)) 0

/-- Models Python `int(s, 16)` on the digit-only fragment the source feeds it:
succeeds exactly on non-empty all-hex-digit strings, else raises `ValueError`
(modelled as `none`). -/
def parseHexNat (s : String) : Option Nat :=
  let cs := s.toList
  if !cs.isEmpty && cs.all isHexDigitChar then
    some (cs.foldl (fun a c => 16 * a + hexVal c) 0)
  else none

/-- Models Python `int(s)` on the digit-only fragment the source feeds it:
an optional leading minus sign followed by a non-empty digit string,
else raises `ValueError` (modelled as `none`). -/
def parseDecInt (s : String) : Option Int :=
  match s.toList with
  | '-' :: rest =>
      if !rest.isEmpty && rest.all Char.isDigit then
        some (-(Int.ofNat (natOfDigits rest)))
      else none
  | cs =>
      if !cs.isEmpty && cs.all Char.isDigit then
        some (Int.ofNat (natOfDigits cs))
      else none

/-- Python slicing `s[a:b]` (never faults, clamps at the ends). -/
def strSlice (s : String) (a b : Nat) : String :=
  String.mk ((s.toList.drop a).take (b - a))

/-- Embeds `_parse_to_vec3_color` (state_generator.py lines 29-45).
`none` models passing Python `None`. Error strings name the Python
exception that the corresponding operation raises; the `ValueError`
for a wrong-length list is the descriptive message from line 44
(the source interpolates the offending list into it). -/
def parse_to_vec3_color : Option (List String) → Except String String
  | none => .ok "255,255,255"
  | some [c] =>
      match c.toList with
      | [] => .error "IndexError: string index out of range"
      | h :: _ =>
        if h == '#' then
          match parseHexNat (strSlice c 1 3), parseHexNat (strSlice c 3 5),
              parseHexNat (strSlice c 5 7) with
          | some r, some g, some b =>
              .ok (String.intercalate "," [toString r, toString g, toString b])
          | _, _, _ => .error "ValueError: invalid literal for int() with base 16"
        else
          .ok (String.intercalate "," [c])
  | some [a, b, c] =>
      match parseDecInt a, parseDecInt b, parseDecInt c with
      | some x, some y, some z =>
          .ok (String.intercalate "," [toString x, toString y, toString z])
      | _, _, _ => .error "ValueError: invalid literal for int() with base 10"
  | some _ =>
      .error "ValueError: input must be a list of 3 values or a Hex color string"

/-- Embeds `_validate_color` (state_generator.py lines 48-50):
raises unless the string has length 7 and starts with a hash. -/
def validate_color (color : String) : Except String Unit :=
  if color.length ≠ 7 ∨ color.toList.head? ≠ some '#' then
    .error "ValueError: Color must be a hex string e.g. #FF0000"
  else
    .ok ()

/-- Follows the spec's words (refinement target for the validation claim):
a color string of the form `#RRGGBB`, i.e. a hash followed by exactly six
hexadecimal digits. -/
def isHexColorForm (s : String) : Bool :=
  s.length == 7 && s.toList.head? == some '#' && (s.toList.drop 1).all isHexDigitChar

/-- Input to the scale-normalising helper: a single float or a 3-tuple. -/
inductive ScaleInput where
  | flt (q : ℚ)
  | triple (x y z : ℚ)

/-- Modelled from the spec: `get_scale` (cryoet_data_portal_neuroglancer/utils.py,
absent from src) normalises a scalar or per-axis scale to a 3-tuple of
per-axis sizes (spec glossary: "physical size of one data element along each
axis"). -/
def get_scale : ScaleInput → ℚ × ℚ × ℚ
  | .flt q => (q, q, q)
  | .triple x y z => (x, y, z)

/-- Models `pathlib.Path(s).stem`: the final path component without its last
extension; a leading or trailing dot does not start an extension. -/
def pathStem (s : String) : String :=
  let comp := ((s.splitOn "/").filter (fun c => !c.isEmpty)).getLastD ""
  let cs := comp.toList
  let n := cs.length
  let sufLen := (cs.reverse.takeWhile (fun c => c ≠ '.')).length
  if 0 < sufLen ∧ sufLen + 1 < n then String.mk (cs.take (n - sufLen - 1)) else comp

/-- Embeds `_setup_creation` (state_generator.py lines 13-26): fills the
defaults for name/url/zarr_path, normalises the scale, and joins url and
source. Returns `(source, name, url, zarr_path, scale)`. -/
def setup_creation (source : String) (name url zarr_path : Option String)
    (scale : ScaleInput) : String × String × String × String × (ℚ × ℚ × ℚ) :=
  let name := name.getD (pathStem source)
  let url := url.getD ""
  let zarr_path := zarr_path.getD source
  let scale3 := get_scale scale
  let sep := if url.isEmpty then "" else "/"
  (url ++ sep ++ source, name, url, zarr_path, scale3)

/-- Modelled from the spec: `AnnotationJSONGenerator.to_json`
(models/json_generator.py, absent from src) fills a fixed-shape
point-annotation layer object from its already-validated inputs (spec section
4.3: "pure dictionary builders ... populate a fixed-shape JSON object"). -/
def annotationLayerJSON (source name color : String) (point_size_multiplier : ℚ)
    (scale : ℚ × ℚ × ℚ) (is_visible is_instance_segmentation : Bool) : Obj :=
  [("type", .jstr "annotation"),
   ("source", .jstr source),
   ("name", .jstr name),
   ("color", .jstr color),
   ("pointSizeMultiplier", .jnum point_size_multiplier),
   ("scale", .jarr [.jnum scale.1, .jnum scale.2.1, .jnum scale.2.2]),
   ("visible", .jbool is_visible),
   ("isInstanceSegmentation", .jbool is_instance_segmentation)]

/-- Embeds `generate_point_layer` (state_generator.py lines 53-73): set-up,
then color parsing (which may raise), then the template fill. -/
def generate_point_layer (source : String) (name url : Option String)
    (color : Option (List String)) (point_size_multiplier : ℚ)
    (scale : ScaleInput) (is_visible is_instance_segmentation : Bool) :
    Except String Obj :=
  let setup := setup_creation source name url none scale
  match parse_to_vec3_color color with
  | .error e => .error e
  | .ok new_color =>
      .ok (annotationLayerJSON setup.1 setup.2.1 new_color point_size_multiplier
        setup.2.2.2.2 is_visible is_instance_segmentation)

/-- Modelled from the spec: `SegmentationJSONGenerator.to_json`
(models/json_generator.py, absent from src) fills a fixed-shape
segmentation-layer object from its already-validated inputs (spec section
4.3). -/
def segmentationLayerJSON (source name color : String) (scale : ℚ × ℚ × ℚ)
    (is_visible : Bool) : Obj :=
  [("type", .jstr "segmentation"),
   ("source", .jstr source),
   ("name", .jstr name),
   ("color", .jstr color),
   ("scale", .jarr [.jnum scale.1, .jnum scale.2.1, .jnum scale.2.2]),
   ("visible", .jbool is_visible)]

/-- Embeds `generate_segmentation_mask_layer` (state_generator.py lines
76-92): set-up, then color validation (which may raise), then the template
fill. -/
def generate_segmentation_mask_layer (source : String) (name url : Option String)
    (color : String) (scale : ScaleInput) (is_visible : Bool) :
    Except String Obj :=
  let setup := setup_creation source name url none scale
  match validate_color color with
  | .error e => .error e
  | .ok _ =>
      .ok (segmentationLayerJSON setup.1 setup.2.1 color setup.2.2.2.2 is_visible)

/-- Modelled from the spec: `ImageVolumeJSONGenerator.to_json`
(models/json_generator.py, absent from src) fills a fixed-shape
volume-rendering layer object from its already-validated inputs (spec
section 4.3, "renderingDepth" among the type-specific keys). -/
def imageVolumeLayerJSON (source name color : String) (scale : ℚ × ℚ × ℚ)
    (is_visible : Bool) (rendering_depth : ℚ) : Obj :=
  [("type", .jstr "image"),
   ("source", .jstr source),
   ("name", .jstr name),
   ("color", .jstr color),
   ("scale", .jarr [.jnum scale.1, .jnum scale.2.1, .jnum scale.2.2]),
   ("visible", .jbool is_visible),
   ("renderingDepth", .jnum rendering_depth)]

/-- Embeds `generate_image_volume_layer` (state_generator.py lines 119-137):
set-up, then color validation (which may raise), then the template fill. -/
def generate_image_volume_layer (source : String) (name url : Option String)
    (color : String) (scale : ScaleInput) (is_visible : Bool)
    (rendering_depth : ℚ) : Except String Obj :=
  let setup := setup_creation source name url none scale
  match validate_color color with
  | .error e => .error e
  | .ok _ =>
      .ok (imageVolumeLayerJSON setup.1 setup.2.1 color setup.2.2.2.2
        is_visible rendering_depth)

/-- Python `v == "image"` for a JSON value: true exactly when `v` is that
string (equality of a non-string JSON value with a Python str is False). -/
def isStrVal : JValue → String → Bool
  | .jstr s, t => s == t
  | _, _ => false

/-- The comprehension `[layer for layer in layers if layer["type"] == "image"]`
from `combine_json_layers` (state_generator.py line 145): raises `KeyError`
on the first layer with no `"type"` key. -/
def imageLayersOf : List Obj → Except String (List Obj)
  | [] => .ok []
  | l :: ls =>
      match lookupKey l "type" with
      | none => .error "KeyError: type"
      | some t =>
          match imageLayersOf ls with
          | .error e => .error e
          | .ok rest => .ok (if isStrVal t "image" then l :: rest else rest)

/-- Boolean form of "this layer has a `type` key". -/
def hasType (l : Obj) : Bool := (lookupKey l "type").isSome

/-- Boolean form of "this layer's `type` is the string `image`". -/
def isImageLayer (l : Obj) : Bool :=
  match lookupKey l "type" with
  | some t => isStrVal t "image"
  | none => false

/-- Embeds `combine_json_layers` (state_generator.py lines 140-163) with
Python's evaluation order: the image-layer comprehension runs first, then the
scene dict literal is built (`layers[0]["name"]` can raise `IndexError` /
`KeyError`), and then — since `if image_layers is not None:` is always true
for a list — `image_layers[0]["_position"]` and
`image_layers[0]["_crossSectionScale"]` are read (each can raise) and
assigned into the dict. The scene dict literal of lines 147-158 is split out
as `combineBaseScene`. -/
def combineBaseScene (layers : List Obj) (scale : ScaleInput) (units : String)
    (firstName : JValue) : Obj :=
  [("dimensions", .jobj
      [("x", .jarr [.jnum (get_scale scale).1, .jstr units]),
       ("y", .jarr [.jnum (get_scale scale).2.1, .jstr units]),
       ("z", .jarr [.jnum (get_scale scale).2.2, .jstr units])]),
   ("crossSectionScale", .jnum 1.8),
   ("projectionOrientation", .jarr
      [.jnum 0.173, .jnum (-0.0126), .jnum (-0.0015), .jnum 0.984]),
   ("layers", .jarr (layers.map .jobj)),
   ("selectedLayer", .jobj
      [("visible", .jbool true), ("layer", firstName)]),
   ("crossSectionBackgroundColor", .jstr "#000000"),
   ("layout", .jstr "4panel")]

/-- Embeds `combine_json_layers` (state_generator.py lines 140-163); see the
comment on `combineBaseScene` for the evaluation order being modelled. -/
def combine_json_layers (layers : List Obj) (scale : ScaleInput)
    (units : String) : Except String Obj :=
  match imageLayersOf layers with
  | .error e => .error e
  | .ok image_layers =>
      match layers with
      | [] => .error "IndexError: layers[0]"
      | first :: _ =>
          match lookupKey first "name" with
          | none => .error "KeyError: name"
          | some firstName =>
              match image_layers with
              | [] => .error "IndexError: image_layers[0]"
              | img :: _ =>
                  match lookupKey img "_position" with
                  | none => .error "KeyError: _position"
                  | some pos =>
                      match lookupKey img "_crossSectionScale" with
                      | none => .error "KeyError: _crossSectionScale"
                      | some css =>
                          .ok (setKey
                            (setKey (combineBaseScene layers scale units firstName)
                              "position" pos)
                            "crossSectionScale" css)

/-- Modelled from the spec: the base `ShaderBuilder`
(models/shader_builder.py, absent from src; spec section 4.1) keeps one
ordered fragment list for the controls region and one for the main-body
region. -/
structure ShaderBuilder where
  shader_controls : List String
  shader_main : List String

/-- A fresh, empty builder. -/
def emptyShaderBuilder : ShaderBuilder := ⟨[], []⟩

/-- Modelled from the spec: `add_to_shader_controls` appends the fragment to
the controls sequence with no validation and no deduplication. -/
def add_to_shader_controls (b : ShaderBuilder) (s : String) : ShaderBuilder :=
  { b with shader_controls := b.shader_controls ++ [s] }

/-- Modelled from the spec: `add_to_shader_main` appends the fragment to the
main-body sequence with no validation and no deduplication. -/
def add_to_shader_main (b : ShaderBuilder) (s : String) : ShaderBuilder :=
  { b with shader_main := b.shader_main ++ [s] }

/-- The `void main()` wrapper of the build template: each main fragment on
its own line indented by two spaces (spec section 4.1, matching the shader
fixtures in src/tests/test_shader.py). -/
def renderMainBlock (mains : List String) : String :=
  "void main() \x7b\n" ++ String.join (mains.map (fun f => "  " ++ f ++ "\n")) ++ "\x7d"

/-- Modelled from the spec: `build_shader` of the base builder joins the
control fragments with newlines in insertion order, a blank line, then the
main wrapper, and strips the result; `shaderControls` is the empty mapping. -/
def build_shader (b : ShaderBuilder) : String × Obj :=
  ((String.intercalate "\n" b.shader_controls ++ "\n\n"
      ++ renderMainBlock b.shader_main).trim,
   [])

/-- One call in a builder call sequence: either an `add_to_shader_controls`
or an `add_to_shader_main` call. -/
inductive ShaderOp where
  | control (s : String)
  | mainBody (s : String)

/-- Perform one builder call. -/
def applyOp (b : ShaderBuilder) : ShaderOp → ShaderBuilder
  | .control s => add_to_shader_controls b s
  | .mainBody s => add_to_shader_main b s

/-- Perform a sequence of builder calls in order. -/
def applyOps (b : ShaderBuilder) (ops : List ShaderOp) : ShaderBuilder :=
  ops.foldl applyOp b

/-- The control fragments of a call sequence, in call order (duplicates
kept). -/
def controlsOf (ops : List ShaderOp) : List String :=
  ops.filterMap (fun o => match o with | .control s => some s | .mainBody _ => none)

/-- The main-body fragments of a call sequence, in call order (duplicates
kept). -/
def mainsOf (ops : List ShaderOp) : List String :=
  ops.filterMap (fun o => match o with | .control _ => none | .mainBody s => some s)

/-- Modelled from the spec: the window derivation of `ImageShaderBuilder`
(models/shader_builder.py, absent from src) when a window-limits pair is
absent. The bounds come from `min`/`max` of the contrast limits, expanded by
a margin of one tenth of the span on each side — the factor is pinned by the
src test `test_get_default_image_shader`, which asserts that contrast limits
`(1.0, -1.0)` derive the window `[-1.2, 1.2]`. -/
def compute_contrast_window (limits : ℚ × ℚ) : ℚ × ℚ :=
  let lo := min limits.1 limits.2
  let hi := max limits.1 limits.2
  (lo - (hi - lo) / 10, hi + (hi - lo) / 10)

/-- Modelled from the spec: the window reported by `ImageShaderBuilder` in
`shaderControls` — the given window limits when present, otherwise derived
from the contrast limits. -/
def image_shader_window (contrast_limits : ℚ × ℚ) :
    Option (ℚ × ℚ) → ℚ × ℚ
  | some w => w
  | none => compute_contrast_window contrast_limits

/-- Follows the claim's words (refinement target): window bounds
`[min - 0.2*(max-min), max + 0.2*(max-min)]`. -/
def claimed_window (limits : ℚ × ℚ) : ℚ × ℚ :=
  let lo := min limits.1 limits.2
  let hi := max limits.1 limits.2
  (lo - (hi - lo) * (2 / 10), hi + (hi - lo) * (2 / 10))

/-! Helper lemmas. -/

/-- When every layer has a `type` key, the image-layer comprehension succeeds
and returns exactly the layers whose type is the string `image`, in order. -/
theorem imageLayersOf_eq_filter (layers : List Obj)
    (h : layers.all hasType = true) :
    imageLayersOf layers = .ok (layers.filter isImageLayer) := by
  induction layers with
  | nil => rfl
  | cons l ls ih =>
    simp only [List.all_cons, Bool.and_eq_true] at h
    obtain ⟨h1, h2⟩ := h
    unfold imageLayersOf
    cases hl : lookupKey l "type" with
    | none => simp [hasType, hl] at h1
    | some t =>
      rw [ih h2]
      simp only [List.filter_cons]
      have : isImageLayer l = isStrVal t "image" := by
        simp [isImageLayer, hl]
      rw [this]

/-- A call sequence leaves the controls fragment list equal to the starting
list followed by the control fragments of the calls, in call order. -/
theorem applyOps_shader_controls (ops : List ShaderOp) (b : ShaderBuilder) :
    (applyOps b ops).shader_controls = b.shader_controls ++ controlsOf ops := by
  induction ops generalizing b with
  | nil => simp [applyOps, controlsOf]
  | cons o os ih =>
    cases o with
    | control s =>
      simp [applyOps, List.foldl, controlsOf] at ih ⊢
      rw [ih]
      simp [applyOp, add_to_shader_controls]
    | mainBody s =>
      simp [applyOps, List.foldl, controlsOf] at ih ⊢
      rw [ih]
      simp [applyOp, add_to_shader_main]

/-- A call sequence leaves the main-body fragment list equal to the starting
list followed by the main fragments of the calls, in call order. -/
theorem applyOps_shader_main (ops : List ShaderOp) (b : ShaderBuilder) :
    (applyOps b ops).shader_main = b.shader_main ++ mainsOf ops := by
  induction ops generalizing b with
  | nil => simp [applyOps, mainsOf]
  | cons o os ih =>
    cases o with
    | control s =>
      simp [applyOps, List.foldl, mainsOf] at ih ⊢
      rw [ih]
      simp [applyOp, add_to_shader_controls]
    | mainBody s =>
      simp [applyOps, List.foldl, mainsOf] at ih ⊢
      rw [ih]
      simp [applyOp, add_to_shader_main]

/-- `validate_color` accepts exactly the strings of length 7 whose first
character is a hash; the remaining six characters are not inspected. -/
theorem validate_color_ok_iff (s : String) :
    validate_color s = .ok () ↔ (s.length = 7 ∧ s.toList.head? = some '#') := by
  unfold validate_color
  split
  · rename_i h
    constructor
    · intro hc; cases hc
    · intro hc
      rcases h with h | h
      · exact absurd hc.1 h
      · exact absurd hc.2 h
  · rename_i h
    push_neg at h
    exact iff_of_true rfl h

/-! Claim theorems. -/

/-- C1: the claim says that with zero image-type layers `combine_json_layers`
returns a scene omitting `position` rather than failing. On the code the
guard `if image_layers is not None:` is always true (a list comprehension is
never `None`), so `image_layers[0]` raises `IndexError`: at the concrete
input below (one segmentation layer, no image layer) the combiner faults
instead of returning a scene. -/
theorem combine_zero_image_layers_raises :
    combine_json_layers
      [[("type", JValue.jstr "segmentation"), ("name", JValue.jstr "seg")]]
      (.triple 1 1 1) "m" = .error "IndexError: image_layers[0]" := rfl

/-- C2: when the layer list is non-empty, every layer has a `type`, the first
image-type layer carries `_position` and `_crossSectionScale`, and the first
layer has a `name`, `combine_json_layers` returns a scene whose `position`
is that image layer's `_position` and whose `crossSectionScale` is that
image layer's `_crossSectionScale`. -/
theorem combine_copies_first_image_layer (layers : List Obj)
    (scale : ScaleInput) (units : String) (first : Obj) (rest : List Obj)
    (img : Obj) (irest : List Obj) (nm pos css : JValue)
    (hl : layers = first :: rest)
    (hty : layers.all hasType = true)
    (hfilter : layers.filter isImageLayer = img :: irest)
    (hnm : lookupKey first "name" = some nm)
    (hpos : lookupKey img "_position" = some pos)
    (hcss : lookupKey img "_crossSectionScale" = some css) :
    ∃ res, combine_json_layers layers scale units = .ok res ∧
      lookupKey res "position" = some pos ∧
      lookupKey res "crossSectionScale" = some css := by
  subst hl
  have h1 := imageLayersOf_eq_filter (first :: rest) hty
  rw [hfilter] at h1
  unfold combine_json_layers
  rw [h1]
  dsimp only
  rw [hnm]
  dsimp only
  rw [hpos]
  dsimp only
  rw [hcss]
  exact ⟨_, rfl, by simp [setKey, lookupKey, combineBaseScene],
    by simp [setKey, lookupKey, combineBaseScene]⟩

/-- Witness for C2: one image layer at position `[1, 2, 3]` with
cross-section scale `2`; the combined scene carries both values. -/
theorem combine_copies_first_image_layer_witness :
    ∃ res, combine_json_layers
        [[("type", JValue.jstr "image"), ("name", JValue.jstr "tomogram"),
          ("_position", JValue.jarr [.jnum 1, .jnum 2, .jnum 3]),
          ("_crossSectionScale", JValue.jnum 2)]]
        (.triple 1 1 1) "m" = .ok res ∧
      lookupKey res "position" = some (.jarr [.jnum 1, .jnum 2, .jnum 3]) ∧
      lookupKey res "crossSectionScale" = some (.jnum 2) :=
  combine_copies_first_image_layer
    [[("type", JValue.jstr "image"), ("name", JValue.jstr "tomogram"),
      ("_position", JValue.jarr [.jnum 1, .jnum 2, .jnum 3]),
      ("_crossSectionScale", JValue.jnum 2)]]
    (.triple 1 1 1) "m"
    [("type", JValue.jstr "image"), ("name", JValue.jstr "tomogram"),
     ("_position", JValue.jarr [.jnum 1, .jnum 2, .jnum 3]),
     ("_crossSectionScale", JValue.jnum 2)] []
    [("type", JValue.jstr "image"), ("name", JValue.jstr "tomogram"),
     ("_position", JValue.jarr [.jnum 1, .jnum 2, .jnum 3]),
     ("_crossSectionScale", JValue.jnum 2)] []
    (.jstr "tomogram") (.jarr [.jnum 1, .jnum 2, .jnum 3]) (.jnum 2)
    rfl rfl rfl rfl rfl rfl

/-- C3 counterexample: the claim says the color parser raises exactly when
the list length is neither 1 nor 3, but this 3-element list also raises,
because `int("x")` fails. -/
theorem parse_color_length3_raises_counterexample :
    (["255", "0", "x"] : List String).length = 3 ∧
    parse_to_vec3_color (some ["255", "0", "x"]) =
      .error "ValueError: invalid literal for int() with base 10" :=
  ⟨rfl, rfl⟩

/-- A 1-element list never produces the descriptive wrong-length message:
its branch of `_parse_to_vec3_color` either succeeds, raises `IndexError`
on an empty string, or raises the base-16 `ValueError` from hex parsing. -/
theorem parse_color_len1_no_wrong_length_error (a : String) :
    parse_to_vec3_color (some [a]) ≠
      .error "ValueError: input must be a list of 3 values or a Hex color string" := by
  cases hd : a.data with
  | nil => simp [parse_to_vec3_color, hd]
  | cons h t =>
    by_cases hh : h = '#'
    · cases h1 : parseHexNat (strSlice a 1 3) <;>
        cases h2 : parseHexNat (strSlice a 3 5) <;>
        cases h3 : parseHexNat (strSlice a 5 7) <;>
        simp [parse_to_vec3_color, hd, hh, h1, h2, h3]
    · simp [parse_to_vec3_color, hd, hh]

/-- A 3-element list never produces the descriptive wrong-length message:
its branch of `_parse_to_vec3_color` either succeeds or raises the base-10
`ValueError` from integer parsing. -/
theorem parse_color_len3_no_wrong_length_error (a b c : String) :
    parse_to_vec3_color (some [a, b, c]) ≠
      .error "ValueError: input must be a list of 3 values or a Hex color string" := by
  cases ha : parseDecInt a <;> cases hb : parseDecInt b <;> cases hc : parseDecInt c <;>
    simp [parse_to_vec3_color, ha, hb, hc]

/-- C3 amended: `["#FF0000"]` parses to `"255,0,0"`, `["255","0","0"]`
parses to `"255,0,0"`, and the descriptive wrong-length `ValueError` is
raised exactly when the list length is neither 1 nor 3 (length-1 and
length-3 lists never yield that message, though they may raise other errors
from component parsing when their elements are malformed). -/
theorem parse_color_amended :
    parse_to_vec3_color (some ["#FF0000"]) = .ok "255,0,0" ∧
    parse_to_vec3_color (some ["255", "0", "0"]) = .ok "255,0,0" ∧
    ∀ ic : List String,
      (parse_to_vec3_color (some ic) =
        .error "ValueError: input must be a list of 3 values or a Hex color string") ↔
      (ic.length ≠ 1 ∧ ic.length ≠ 3) := by
  refine ⟨rfl, rfl, ?_⟩
  intro ic
  cases ic with
  | nil => exact iff_of_true rfl (by simp only [List.length_nil]; omega)
  | cons a t =>
    cases t with
    | nil =>
      exact iff_of_false (parse_color_len1_no_wrong_length_error a)
        (by simp only [List.length_cons, List.length_nil]; omega)
    | cons b t2 =>
      cases t2 with
      | nil =>
        exact iff_of_true rfl
          (by simp only [List.length_cons, List.length_nil]; omega)
      | cons c t3 =>
        cases t3 with
        | nil =>
          exact iff_of_false (parse_color_len3_no_wrong_length_error a b c)
            (by simp only [List.length_cons, List.length_nil]; omega)
        | cons d t4 =>
          exact iff_of_true rfl
            (by simp only [List.length_cons, List.length_nil]; omega)

/-- Witness for C3: the 2-element list of the claim raises the descriptive
error, through the amended biconditional at a concrete input. -/
theorem parse_color_amended_witness :
    parse_to_vec3_color (some ["a", "b"]) =
      .error "ValueError: input must be a list of 3 values or a Hex color string" :=
  (parse_color_amended.2.2 ["a", "b"]).mpr (by decide)

/-- C4 counterexample: the claim says validation rejects every string not of
the form `#RRGGBB`, but `"#zzzzzz"` is not of that form (its six trailing
characters are not hex digits) and is accepted by `_validate_color`, and
`generate_segmentation_mask_layer` succeeds with it. -/
theorem validate_color_accepts_nonhex_counterexample :
    isHexColorForm "#zzzzzz" = false ∧
    validate_color "#zzzzzz" = .ok () ∧
    ∃ layer, generate_segmentation_mask_layer "seg.zarr" none none "#zzzzzz"
      (.triple 1 1 1) true = .ok layer :=
  ⟨rfl, rfl, ⟨_, rfl⟩⟩

/-- C4 amended: validation in `generate_segmentation_mask_layer` and
`generate_image_volume_layer` fails exactly when the color string does not
have length 7 with a leading hash; the remaining six characters are not
checked to be hex digits. -/
theorem validate_color_amended (s : String) :
    (validate_color s = .ok () ↔ (s.length = 7 ∧ s.toList.head? = some '#')) ∧
    ((∃ l, generate_segmentation_mask_layer "seg.zarr" none none s
        (.triple 1 1 1) true = .ok l) ↔
      (s.length = 7 ∧ s.toList.head? = some '#')) ∧
    ((∃ l, generate_image_volume_layer "vol.zarr" none none s
        (.triple 1 1 1) true 10000 = .ok l) ↔
      (s.length = 7 ∧ s.toList.head? = some '#')) := by
  refine ⟨validate_color_ok_iff s, ?_, ?_⟩
  · unfold generate_segmentation_mask_layer
    cases hvc : validate_color s with
    | error e =>
      simp only [hvc]
      constructor
      · rintro ⟨l, hl⟩; cases hl
      · intro hc
        have hok := (validate_color_ok_iff s).mpr hc
        rw [hvc] at hok; cases hok
    | ok u =>
      cases u
      simp only [hvc]
      constructor
      · intro _; exact (validate_color_ok_iff s).mp hvc
      · intro _; exact ⟨_, rfl⟩
  · unfold generate_image_volume_layer
    cases hvc : validate_color s with
    | error e =>
      simp only [hvc]
      constructor
      · rintro ⟨l, hl⟩; cases hl
      · intro hc
        have hok := (validate_color_ok_iff s).mpr hc
        rw [hvc] at hok; cases hok
    | ok u =>
      cases u
      simp only [hvc]
      constructor
      · intro _; exact (validate_color_ok_iff s).mp hvc
      · intro _; exact ⟨_, rfl⟩

/-- C5: on an empty layer list `combine_json_layers` does not return a scene:
the first failing general-purpose indexing, `layers[0]` while building
`selectedLayer`, faults (the image-layer comprehension over an empty list
succeeds first and yields the empty list). -/
theorem combine_empty_layers_faults (scale : ScaleInput) (units : String) :
    combine_json_layers [] scale units = .error "IndexError: layers[0]" := rfl

/-- C6: whenever `combine_json_layers` returns a scene, the scene carries the
fixed keys `dimensions`, `crossSectionScale`, `projectionOrientation`,
`layers`, `selectedLayer`, `crossSectionBackgroundColor` and `layout`, with
`layers` equal to the input layer list. -/
theorem combine_scene_fixed_keys (layers : List Obj) (scale : ScaleInput)
    (units : String) (res : Obj)
    (h : combine_json_layers layers scale units = .ok res) :
    (lookupKey res "dimensions").isSome = true ∧
    (lookupKey res "crossSectionScale").isSome = true ∧
    lookupKey res "projectionOrientation" =
      some (.jarr [.jnum 0.173, .jnum (-0.0126), .jnum (-0.0015), .jnum 0.984]) ∧
    lookupKey res "layers" = some (.jarr (layers.map .jobj)) ∧
    (lookupKey res "selectedLayer").isSome = true ∧
    lookupKey res "crossSectionBackgroundColor" = some (.jstr "#000000") ∧
    lookupKey res "layout" = some (.jstr "4panel") := by
  unfold combine_json_layers at h
  split at h
  · cases h
  · split at h
    · cases h
    · split at h
      · cases h
      · split at h
        · cases h
        · split at h
          · cases h
          · split at h
            · cases h
            · injection h with h
              subst h
              refine ⟨?_, ?_, ?_, ?_, ?_, ?_, ?_⟩ <;>
                simp [setKey, lookupKey, combineBaseScene]

/-- Witness for C6: the fixed keys of the scene combined from one concrete
image layer. -/
theorem combine_scene_fixed_keys_witness :
    ∃ res, combine_json_layers
        [[("type", JValue.jstr "image"), ("name", JValue.jstr "vol"),
          ("_position", JValue.jarr [.jnum 0, .jnum 0, .jnum 0]),
          ("_crossSectionScale", JValue.jnum 1)]]
        (.triple 1 1 1) "m" = .ok res ∧
      ((lookupKey res "dimensions").isSome = true ∧
       (lookupKey res "crossSectionScale").isSome = true ∧
       lookupKey res "projectionOrientation" =
         some (.jarr [.jnum 0.173, .jnum (-0.0126), .jnum (-0.0015), .jnum 0.984]) ∧
       lookupKey res "layers" = some (.jarr
         ([[("type", JValue.jstr "image"), ("name", JValue.jstr "vol"),
            ("_position", JValue.jarr [.jnum 0, .jnum 0, .jnum 0]),
            ("_crossSectionScale", JValue.jnum 1)]].map .jobj)) ∧
       (lookupKey res "selectedLayer").isSome = true ∧
       lookupKey res "crossSectionBackgroundColor" = some (.jstr "#000000") ∧
       lookupKey res "layout" = some (.jstr "4panel")) :=
  ⟨_, rfl, combine_scene_fixed_keys
    [[("type", JValue.jstr "image"), ("name", JValue.jstr "vol"),
      ("_position", JValue.jarr [.jnum 0, .jnum 0, .jnum 0]),
      ("_crossSectionScale", JValue.jnum 1)]]
    (.triple 1 1 1) "m" _ rfl⟩

/-- C7: for every sequence of `add_to_shader_controls`/`add_to_shader_main`
calls on a fresh builder, the accumulated fragments equal the call-order
projections of the sequence (duplicates kept, no deduplication), region by
region, and the built shader string joins each region in exactly that
order. -/
theorem shader_fragments_follow_call_order (ops : List ShaderOp) :
    (applyOps emptyShaderBuilder ops).shader_controls = controlsOf ops ∧
    (applyOps emptyShaderBuilder ops).shader_main = mainsOf ops ∧
    (build_shader (applyOps emptyShaderBuilder ops)).1 =
      (String.intercalate "\n" (controlsOf ops) ++ "\n\n"
        ++ renderMainBlock (mainsOf ops)).trim := by
  have hc := applyOps_shader_controls ops emptyShaderBuilder
  have hm := applyOps_shader_main ops emptyShaderBuilder
  rw [show emptyShaderBuilder.shader_controls = [] from rfl, List.nil_append] at hc
  rw [show emptyShaderBuilder.shader_main = [] from rfl, List.nil_append] at hm
  exact ⟨hc, hm, by rw [build_shader, hc, hm]⟩

/-- C8 counterexample: the claim's formula
`[min - 0.2*(max-min), max + 0.2*(max-min)]` disagrees with the derived
window at contrast limits `(1.0, -1.0)`: the formula yields `[-1.4, 1.4]`,
while the derivation (pinned by the src test's asserted `[-1.2, 1.2]`)
expands by one tenth of the span per side. -/
theorem window_formula_counterexample :
    claimed_window (1, -1) ≠ image_shader_window (1, -1) none ∧
    image_shader_window (1, -1) none = (-1.2, 1.2) := by
  constructor
  · simp [claimed_window, image_shader_window, compute_contrast_window,
      min_def, max_def]
    norm_num
  · simp [image_shader_window, compute_contrast_window, min_def, max_def]
    norm_num

/-- C8 amended: when window limits are absent the window is derived from the
contrast limits as `[min - 0.1*(max-min), max + 0.1*(max-min)]`; the
derivation is order-independent in its min/max computation, and contrast
limits `(1.0, -1.0)` yield the window `[-1.2, 1.2]`. -/
theorem window_derivation_amended (a b : ℚ) :
    image_shader_window (a, b) none = image_shader_window (b, a) none ∧
    image_shader_window (a, b) none =
      (min a b - (max a b - min a b) / 10, max a b + (max a b - min a b) / 10) ∧
    image_shader_window (1, -1) none = (-1.2, 1.2) := by
  refine ⟨?_, rfl, ?_⟩
  · simp [image_shader_window, compute_contrast_window, min_comm, max_comm]
  · simp [image_shader_window, compute_contrast_window, min_def, max_def]
    norm_num

/-- C9: with `None` in place of a color list the parser does not fail — it
returns the default white `"255,255,255"` — and `generate_point_layer`
called without a color therefore produces a layer whose color is white. -/
theorem point_layer_default_white (source : String) (psm : ℚ)
    (scale : ScaleInput) (vis inst : Bool) :
    parse_to_vec3_color none = .ok "255,255,255" ∧
    ∃ layer, generate_point_layer source none none none psm scale vis inst
        = .ok layer ∧
      lookupKey layer "color" = some (.jstr "255,255,255") :=
  ⟨rfl, ⟨_, rfl, rfl⟩⟩

/-- C10: whenever `combine_json_layers` returns a scene, its `selectedLayer`
is exactly the object with `visible` true and `layer` the name of the first
layer of the input list, whatever the layer types and visibility flags. -/
theorem combine_selected_layer_first_name (layers : List Obj)
    (scale : ScaleInput) (units : String) (res : Obj)
    (h : combine_json_layers layers scale units = .ok res) :
    ∃ first rest nm, layers = first :: rest ∧
      lookupKey first "name" = some nm ∧
      lookupKey res "selectedLayer" =
        some (.jobj [("visible", .jbool true), ("layer", nm)]) := by
  unfold combine_json_layers at h
  split at h
  · cases h
  · split at h
    · cases h
    · rename_i first rest heql
      split at h
      · cases h
      · rename_i nm hnm
        split at h
        · cases h
        · split at h
          · cases h
          · split at h
            · cases h
            · injection h with h
              subst h
              exact ⟨first, rest, nm, rfl, hnm,
                by simp [setKey, lookupKey, combineBaseScene]⟩

/-- Witness for C10: the scene combined from a segmentation layer followed
by an image layer selects the first layer (`seg`), not the image layer. -/
theorem combine_selected_layer_first_name_witness :
    ∃ res, combine_json_layers
        [[("type", JValue.jstr "segmentation"), ("name", JValue.jstr "seg")],
         [("type", JValue.jstr "image"), ("name", JValue.jstr "vol"),
          ("_position", JValue.jarr [.jnum 0, .jnum 0, .jnum 0]),
          ("_crossSectionScale", JValue.jnum 1)]]
        (.triple 1 1 1) "m" = .ok res ∧
      ∃ first rest nm,
        ([[("type", JValue.jstr "segmentation"), ("name", JValue.jstr "seg")],
          [("type", JValue.jstr "image"), ("name", JValue.jstr "vol"),
           ("_position", JValue.jarr [.jnum 0, .jnum 0, .jnum 0]),
           ("_crossSectionScale", JValue.jnum 1)]] : List Obj)
          = first :: rest ∧
        lookupKey first "name" = some nm ∧
        lookupKey res "selectedLayer" =
          some (.jobj [("visible", .jbool true), ("layer", nm)]) :=
  ⟨_, rfl, combine_selected_layer_first_name
    [[("type", JValue.jstr "segmentation"), ("name", JValue.jstr "seg")],
     [("type", JValue.jstr "image"), ("name", JValue.jstr "vol"),
      ("_position", JValue.jarr [.jnum 0, .jnum 0, .jnum 0]),
      ("_crossSectionScale", JValue.jnum 1)]]
    (.triple 1 1 1) "m" _ rfl⟩

end CryoetNeuroglancer
